import Mathlib

/-!
Shallow embedding of the card composition and export engine of the
parasha-pack repository: the text-fit engine (FitText), the card dispatch
router (CardFactory), manual element offsets (DraggableElement), legacy
field-name normalization (api.ts), the spotlight front renderer, and the
export orchestrator CLI script.  Definitions translate the TypeScript
source; theorems settle the specification claims against them.
-/

namespace ParashaPack

/-! ## Text-fit engine — src/card-designer/components/ui/FitText.tsx

The effect body (lines 34-53):

  availableWidth := container.offsetWidth - padding * 2
  if availableWidth <= 0 then return            -- fontSize keeps its state
  text.style.fontSize := maxSize                -- written to the visible span
  naturalWidth := text.scrollWidth
  if naturalWidth <= availableWidth then setFontSize maxSize
  else setFontSize (max minSize (floor (maxSize * availableWidth / naturalWidth)))

Widths and sizes are pixel counts, modelled as naturals; the JS
`Math.floor(maxSize * (availableWidth / naturalWidth))` is the natural-number
division `maxSize * availableWidth / naturalWidth`.  `prevSize` is the
current `fontSize` state (initialised by `useState(maxSize)`); the early
return on non-positive available width leaves it unchanged. -/
def fitFontSize (prevSize maxSize minSize padding containerWidth naturalWidth : ℕ) : ℕ :=
  if containerWidth ≤ 2 * padding then
    prevSize
  else if naturalWidth ≤ containerWidth - 2 * padding then
    maxSize
  else
    max minSize (maxSize * (containerWidth - 2 * padding) / naturalWidth)

/-- Font size produced on the first render of `FitText`, where the
`useState(maxSize)` initial state is the previous size. -/
def fitText (maxSize minSize padding containerWidth naturalWidth : ℕ) : ℕ :=
  fitFontSize maxSize maxSize minSize padding containerWidth naturalWidth

/-- Ordered sequence of font sizes written to the visible text span by one
run of the measurement effect: nothing when the early return fires (before
the measurement write on line 43), otherwise the measurement write of
`maxSize` (line 43, `text.style.fontSize = maxSize px` on the rendered
span) followed by the chosen size applied through `setFontSize`. -/
def fitEffectWrites (prevSize maxSize minSize padding containerWidth naturalWidth : ℕ) :
    List ℕ :=
  if containerWidth ≤ 2 * padding then
    []
  else
    [maxSize, fitFontSize prevSize maxSize minSize padding containerWidth naturalWidth]

/-! ## Card dispatch router — CardFactory
(src/card-designer/components/editor/EditorSidebar.tsx, second document,
lines 253-306) -/

/-- Requested card side, the `side` prop of `CardFactory` (default `front`). -/
inductive Side where
  | front
  | back
  deriving DecidableEq, Repr

/-- Result of dispatch: one variant renderer per (declared card type, side),
plus the explicit default-case placeholder renderers, which keep the
unrecognized `card_type` string they display. -/
inductive Renderer where
  | anchorFront
  | spotlightFront
  | storyFront
  | connectionFront
  | powerWordFront
  | traditionFront
  | unknownFront (cardType : String)
  | anchorBack
  | spotlightBack
  | storyBack
  | connectionBack
  | powerWordBack
  | traditionBack
  | unknownBack (cardType : String)
  deriving DecidableEq, Repr

/-- The six `card_type` values declared in src/card-designer/types/card.ts. -/
def knownCardTypes : List String :=
  ["anchor", "spotlight", "story", "connection", "power_word", "tradition"]

/-- Dispatch of `CardFactory`: the back-side switch (lines 257-279) and the
front-side switch (lines 282-305), each with its default placeholder case. -/
def CardFactory (cardType : String) (side : Side) : Renderer :=
  match side with
  | Side.back =>
    if cardType = "anchor" then Renderer.anchorBack
    else if cardType = "spotlight" then Renderer.spotlightBack
    else if cardType = "story" then Renderer.storyBack
    else if cardType = "connection" then Renderer.connectionBack
    else if cardType = "power_word" then Renderer.powerWordBack
    else if cardType = "tradition" then Renderer.traditionBack
    else Renderer.unknownBack cardType
  | Side.front =>
    if cardType = "anchor" then Renderer.anchorFront
    else if cardType = "spotlight" then Renderer.spotlightFront
    else if cardType = "story" then Renderer.storyFront
    else if cardType = "connection" then Renderer.connectionFront
    else if cardType = "power_word" then Renderer.powerWordFront
    else if cardType = "tradition" then Renderer.traditionFront
    else Renderer.unknownFront cardType

/-! ## Manual element offsets — DraggableElement
(src/card-designer/components/editor/DraggableElement.tsx) and the
`elementPositions` reset button of EditorSidebar.tsx (line 102,
`update(elementPositions, empty-map)`). -/

/-- A pixel position or offset. -/
structure Pos where
  x : Int
  y : Int
  deriving DecidableEq, Repr

/-- Line 17: `config.elementPositions?.[id] || x0y0` — the saved offset for
the element id, or the zero offset when the map has no entry.  The map is
modelled as an association list keyed by the element id string. -/
def elementOffset (elementPositions : List (String × Pos)) (id : String) : Pos :=
  (elementPositions.lookup id).getD (Pos.mk 0 0)

/-- Rendered position of a draggable element: framer-motion translates the
element by `(position.x, position.y)` from its default layout position
(`animate x := position.x, y := position.y`, lines 23-24). -/
def renderedPosition (defaultPos : Pos) (elementPositions : List (String × Pos))
    (id : String) : Pos :=
  Pos.mk (defaultPos.x + (elementOffset elementPositions id).x)
    (defaultPos.y + (elementOffset elementPositions id).y)

/-! ## Field-name normalization — src/card-designer/lib/api.ts, lines 47-93 -/

/-- JS truthiness of an optional string field: `undefined` and the empty
string are falsy, every other string is truthy. -/
def truthyStr (v : Option String) : Bool :=
  match v with
  | none => false
  | some s => !(s == "")

/-- A merged card record as seen by `normalizeFieldNames`: the `card_type`
tag, the alias-target fields and their legacy alias sources, and a sample of
unrelated fields carried through unchanged.  `feeling_faces` keeps each
face's optional `emoji` field. -/
structure RawCard where
  card_type : String
  hebrew_name : Option String := none
  english_name : Option String := none
  character_name_he : Option String := none
  character_name_en : Option String := none
  emotion_word_he : Option String := none
  emotion_word_en : Option String := none
  emotion_label_he : Option String := none
  emotion_label_en : Option String := none
  english_description : Option String := none
  description_en : Option String := none
  hebrew_title : Option String := none
  english_title : Option String := none
  title_he : Option String := none
  title_en : Option String := none
  emojis : Option (List String) := none
  feeling_faces : Option (List (Option String)) := none
  border_color : Option String := none
  image_path : Option String := none
  teacher_script : Option String := none
  deriving DecidableEq, Repr

/-- Lines 76-78: `feeling_faces.map(f => f.emoji).filter(Boolean)` — missing
and empty emoji values are dropped. -/
def emojisFromFeelingFaces (faces : List (Option String)) : List String :=
  faces.filterMap (fun e =>
    match e with
    | none => none
    | some s => if s = "" then none else some s)

/-- Translation of `normalizeFieldNames` (api.ts lines 47-93).  Each legacy
alias is copied onto its target only when the target is falsy and the alias
truthy, guarded by the card type; `emojis` (an array) is falsy only when
absent, while `feeling_faces` only needs to be present.  The four type
blocks run in sequence on the copied record. -/
def normalizeFieldNames (card : RawCard) : RawCard :=
  let n1 :=
    if card.card_type = "spotlight" then
      { card with
        hebrew_name :=
          if !truthyStr card.hebrew_name && truthyStr card.character_name_he then
            card.character_name_he
          else card.hebrew_name,
        english_name :=
          if !truthyStr card.english_name && truthyStr card.character_name_en then
            card.character_name_en
          else card.english_name,
        emotion_word_he :=
          if !truthyStr card.emotion_word_he && truthyStr card.emotion_label_he then
            card.emotion_label_he
          else card.emotion_word_he,
        emotion_word_en :=
          if !truthyStr card.emotion_word_en && truthyStr card.emotion_label_en then
            card.emotion_label_en
          else card.emotion_word_en }
    else card
  let n2 :=
    if card.card_type = "story" then
      { n1 with
        english_description :=
          if !truthyStr n1.english_description && truthyStr n1.description_en then
            n1.description_en
          else n1.english_description }
    else n1
  let n3 :=
    if card.card_type = "connection" then
      { n2 with
        emojis :=
          if n2.emojis.isNone && n2.feeling_faces.isSome then
            some (emojisFromFeelingFaces (n2.feeling_faces.getD []))
          else n2.emojis }
    else n2
  if card.card_type = "tradition" ∨ card.card_type = "anchor" then
    { n3 with
      hebrew_title :=
        if !truthyStr n3.hebrew_title && truthyStr n3.title_he then
          n3.title_he
        else n3.hebrew_title,
      english_title :=
        if !truthyStr n3.english_title && truthyStr n3.title_en then
          n3.title_en
        else n3.english_title }
  else n3

/-- A sample merged record for concrete witnesses: a spotlight card whose
alias-target fields are already populated alongside their legacy aliases. -/
def sampleSpotlight : RawCard :=
  { card_type := "spotlight",
    hebrew_name := some "אֶסְתֵּר",
    english_name := some "Esther",
    character_name_he := some "legacy-he",
    character_name_en := some "legacy-en",
    emotion_word_he := some "אֹמֶץ",
    emotion_label_he := some "legacy-emotion",
    border_color := some "#d4a84b" }

/-! ## Spotlight front renderer — src/card-designer/components/cards/SpotlightCard.tsx

The content layer (lines 53-101) emits two text-bearing zones, in order:
the names block (DraggableElement id `spotlight-names`, rendering
`card.hebrew_name` then `card.english_name`) and the emotion badge
(DraggableElement id `emotion-badge`, rendering `card.emotion_word_he` then
`card.emotion_word_en`).  Both zones are emitted unconditionally. -/

/-- A text-bearing zone of a rendered card front: its stable element id and
its text expressions in document order (each an optional card field). -/
structure Slot where
  elementId : String
  texts : List (Option String)
  deriving DecidableEq, Repr

/-- The ordered text-bearing zones of the spotlight front for the given
card fields. -/
def spotlightFrontSlots (hebrewName englishName emotionWordHe emotionWordEn :
    Option String) : List Slot :=
  [Slot.mk "spotlight-names" [hebrewName, englishName],
   Slot.mk "emotion-badge" [emotionWordHe, emotionWordEn]]

/-- Text React shows for one text expression: an absent field renders
nothing, the empty string renders nothing, any other string renders
itself.  No placeholder is substituted. -/
def renderedText (t : Option String) : List String :=
  match t with
  | none => []
  | some s => if s = "" then [] else [s]

/-- All text shown inside one zone, in order. -/
def slotTexts (s : Slot) : List String :=
  (s.texts.map renderedText).flatten

/-- All text shown on a rendered front, in order. -/
def renderedTexts (slots : List Slot) : List String :=
  (slots.map slotTexts).flatten

/-! ## Export orchestrator — src/unnamed/part_007 (scripts export CLI) -/

/-- Outcome of one `exportCard` call, as logged: success, or a caught
per-card failure logged with the card id and the side (line 148). -/
inductive LogEntry where
  | ok (cardId : String) (side : Side)
  | err (cardId : String) (side : Side)
  deriving DecidableEq, Repr

/-- Polling loop of `waitForServer` (lines 46-58): up to `fuel` reachability
attempts starting at attempt index `i`; returns true on the first attempt
where the server answers, false when the attempts are exhausted.
`readyAt j` tells whether the fetch of attempt `j` succeeds. -/
def waitForServer (readyAt : ℕ → Bool) (i fuel : ℕ) : Bool :=
  match fuel with
  | 0 => false
  | fuel + 1 => if readyAt i then true else waitForServer readyAt (i + 1) fuel

/-- `exportCard` (lines 111-152): the whole per-card navigation/screenshot
is inside try/catch, so a failing card produces an error log entry carrying
the card id and side and never propagates. -/
def exportCard (succeeded : Bool) (cardId : String) (side : Side) : LogEntry :=
  if succeeded then LogEntry.ok cardId side else LogEntry.err cardId side

/-- The `--backs` / `--backs-only` / `--fronts-only` option set. -/
structure ExportOptions where
  fronts : Bool
  backs : Bool
  deriving DecidableEq, Repr

/-- Result of one run of the export script: the process exit status, whether
`startDevServer` spawned a child server process (it returns null when the
probe found one already running, lines 69-73), and whether that spawned
child was killed before the process ended. -/
structure RunResult where
  exitCode : ℕ
  spawned : Bool
  killedSpawned : Bool
  logs : List LogEntry
  deriving DecidableEq, Repr

/-- One run of `exportDeck` (lines 159-220) plus the `startDevServer`
lifecycle (lines 69-109).  Each card is `(card_id, front export succeeds,
back export succeeds)`.  Paths:
manifest missing — `process.exit(1)` before any server work (lines 162-165);
spawned server never ready within 30 attempts — `serverProcess.kill()` then
`process.exit(1)` (lines 101-105);
otherwise both requested loops run to completion over every card, the
process ends with status 0, and the finally block kills the server child
exactly when `serverProcess` is non-null, i.e. when it was spawned
(lines 212-219). -/
def exportDeck (deckExists : Bool) (cards : List (String × Bool × Bool))
    (alreadyRunning : Bool) (readyAt : ℕ → Bool) (opts : ExportOptions) : RunResult :=
  if !deckExists then
    RunResult.mk 1 false false []
  else
    let spawned := !alreadyRunning
    let serverReady := alreadyRunning || waitForServer readyAt 0 30
    if !serverReady then
      RunResult.mk 1 spawned spawned []
    else
      let frontLogs :=
        if opts.fronts then cards.map (fun c => exportCard c.2.1 c.1 Side.front) else []
      let backLogs :=
        if opts.backs then cards.map (fun c => exportCard c.2.2 c.1 Side.back) else []
      RunResult.mk 0 spawned spawned (frontLogs ++ backLogs)

/-! ## Helper lemmas for the text-fit engine -/

/-- The linear estimate never exceeds `maxSize` once the text overflows. -/
theorem scaled_le_maxSize (maxSize a n : ℕ) (h : a ≤ n) :
    maxSize * a / n ≤ maxSize :=
  Nat.div_le_of_le_mul' (by
    calc maxSize * a ≤ maxSize * n := Nat.mul_le_mul_left maxSize h
      _ = n * maxSize := Nat.mul_comm maxSize n)

/-- Branch form of the first-render fit on a positive available width. -/
theorem fitText_pos_eq (maxSize minSize padding w naturalWidth : ℕ)
    (h : 2 * padding < w) :
    fitText maxSize minSize padding w naturalWidth =
      if naturalWidth ≤ w - 2 * padding then maxSize
      else max minSize (maxSize * (w - 2 * padding) / naturalWidth) := by
  unfold fitText fitFontSize
  rw [if_neg (by omega)]

/-- Upper bound for every branch of the effect. -/
theorem fitFontSize_le_maxSize (prevSize maxSize minSize padding containerWidth
    naturalWidth : ℕ) (hms : minSize ≤ maxSize) (hprev : prevSize ≤ maxSize) :
    fitFontSize prevSize maxSize minSize padding containerWidth naturalWidth ≤ maxSize := by
  unfold fitFontSize
  split
  · exact hprev
  · split
    · exact le_refl maxSize
    · rename_i h1 h2
      exact max_le hms (scaled_le_maxSize maxSize _ _ (by omega))

/-- Lower bound for every branch of the effect. -/
theorem minSize_le_fitFontSize (prevSize maxSize minSize padding containerWidth
    naturalWidth : ℕ) (hms : minSize ≤ maxSize) (hprev : minSize ≤ prevSize) :
    minSize ≤ fitFontSize prevSize maxSize minSize padding containerWidth naturalWidth := by
  unfold fitFontSize
  split
  · exact hprev
  · split
    · exact hms
    · exact le_max_left minSize _

/-! ## C1 — linear scaling formula of FitText -/

/-- C1: for every text, maxSize, minSize, container width and padding with
positive available width, the text-fit computation returns `maxSize` when the
natural rendered width at `maxSize` is at most the available width, and
otherwise returns `floor(maxSize * availableWidth / naturalWidth)` clamped
from below to `minSize`. -/
theorem fitText_linear_scale (maxSize minSize padding containerWidth naturalWidth : ℕ)
    (h : 2 * padding < containerWidth) :
    (naturalWidth ≤ containerWidth - 2 * padding →
      fitText maxSize minSize padding containerWidth naturalWidth = maxSize) ∧
    (containerWidth - 2 * padding < naturalWidth →
      fitText maxSize minSize padding containerWidth naturalWidth =
        max minSize (maxSize * (containerWidth - 2 * padding) / naturalWidth)) := by
  unfold fitText fitFontSize
  rw [if_neg (by omega)]
  constructor
  · intro hn
    rw [if_pos hn]
  · intro hn
    rw [if_neg (by omega)]

/-- Witness for C1 at a concrete overflowing input: natural width 1000 at
max size 120 against available width 500 scales to `max 36 60 = 60`. -/
theorem fitText_linear_scale_witness :
    fitText 120 36 40 580 1000 = max 36 (120 * (580 - 2 * 40) / 1000) :=
  (fitText_linear_scale 120 36 40 580 1000 (by decide)).2 (by decide)

/-! ## C4 — behaviour when the available width is not positive -/

/-- C4 counterexample: at container width 10 and padding 40 (available width
non-positive) the computation returns the initial state `maxSize = 120`, not
`minSize = 36` as the claim states. -/
theorem fitText_nonpositive_available_counterexample :
    fitText 120 36 40 10 500 = 120 ∧ fitText 120 36 40 10 500 ≠ 36 := by
  decide

/-- C4 amended: when the available width is not positive the effect returns
early, keeping the current font size unchanged — `maxSize` on the first
render — and never throws (the computation is a total function). -/
theorem fitText_nonpositive_available (prevSize maxSize minSize padding containerWidth
    naturalWidth : ℕ) (h : containerWidth ≤ 2 * padding) :
    fitFontSize prevSize maxSize minSize padding containerWidth naturalWidth = prevSize ∧
    fitText maxSize minSize padding containerWidth naturalWidth = maxSize := by
  constructor
  · unfold fitFontSize
    rw [if_pos h]
  · unfold fitText fitFontSize
    rw [if_pos h]

/-- Witness for C4 (amended) at a concrete input with zero available width. -/
theorem fitText_nonpositive_available_witness :
    fitFontSize 99 120 36 40 80 500 = 99 ∧ fitText 120 36 40 80 500 = 120 :=
  fitText_nonpositive_available 99 120 36 40 80 500 (by decide)

/-! ## C5 — monotonicity and bounds of the text-fit result -/

/-- C5 counterexample: with `minSize = 36 ≤ maxSize = 120`, fixed padding 40
and fixed natural width 1000, shrinking the container from 580 to 80 drives
the available width to zero, the early return keeps the initial `maxSize`,
and the result grows from 60 to 120 — the fit is not non-increasing as the
container width decreases. -/
theorem fitText_monotone_counterexample :
    (36 : ℕ) ≤ 120 ∧ (80 : ℕ) < 580 ∧
    fitText 120 36 40 580 1000 < fitText 120 36 40 80 1000 := by
  decide

/-- C5 amended: for a fixed string and font with `minSize ≤ maxSize`, the
text-fit result is non-increasing as the container width decreases while the
available width stays positive, and the returned size always lies in the
closed interval `[minSize, maxSize]` (on widths with non-positive available
width the early return yields `maxSize`, which breaks monotonicity but still
respects the bounds). -/
theorem fitText_monotone_in_bounds (maxSize minSize padding naturalWidth : ℕ)
    (hms : minSize ≤ maxSize) :
    (∀ w1 w2 : ℕ, 2 * padding < w2 → w2 ≤ w1 →
      fitText maxSize minSize padding w2 naturalWidth ≤
        fitText maxSize minSize padding w1 naturalWidth) ∧
    (∀ w : ℕ, minSize ≤ fitText maxSize minSize padding w naturalWidth ∧
      fitText maxSize minSize padding w naturalWidth ≤ maxSize) := by
  constructor
  · intro w1 w2 h2 h12
    have h1 : 2 * padding < w1 := lt_of_lt_of_le h2 h12
    rw [fitText_pos_eq maxSize minSize padding w2 naturalWidth h2,
      fitText_pos_eq maxSize minSize padding w1 naturalWidth h1]
    by_cases ha1 : naturalWidth ≤ w1 - 2 * padding
    · rw [if_pos ha1]
      by_cases ha2 : naturalWidth ≤ w2 - 2 * padding
      · rw [if_pos ha2]
      · rw [if_neg ha2]
        exact max_le hms (scaled_le_maxSize maxSize _ _ (by omega))
    · have ha2 : ¬ naturalWidth ≤ w2 - 2 * padding := by omega
      rw [if_neg ha1, if_neg ha2]
      exact max_le_max (le_refl minSize)
        (Nat.div_le_div_right (Nat.mul_le_mul_left maxSize (by omega)))
  · intro w
    exact ⟨minSize_le_fitFontSize maxSize maxSize minSize padding w naturalWidth hms hms,
      fitFontSize_le_maxSize maxSize maxSize minSize padding w naturalWidth hms (le_refl maxSize)⟩

/-- Witness for C5 (amended) at concrete widths 300 ≤ 580 with positive
available widths, plus the bounds at width 300. -/
theorem fitText_monotone_in_bounds_witness :
    fitText 120 36 40 300 1000 ≤ fitText 120 36 40 580 1000 ∧
    (36 ≤ fitText 120 36 40 300 1000 ∧ fitText 120 36 40 300 1000 ≤ 120) :=
  ⟨(fitText_monotone_in_bounds 120 36 40 1000 (by decide)).1 580 300 (by decide) (by decide),
   (fitText_monotone_in_bounds 120 36 40 1000 (by decide)).2 300⟩

/-! ## C9 — mutation of the visible element during measurement -/

/-- C9 counterexample: at container width 580, padding 40, natural width
1000, the measurement effect writes font size 120 (`maxSize`) to the visible
span and only afterwards the chosen size 60 — an intermediate, non-final
size is applied to the visible element. -/
theorem fitEffect_visible_write_counterexample :
    fitEffectWrites 120 120 36 40 580 1000 = [120, 60] ∧
    (fitEffectWrites 120 120 36 40 580 1000).getLast? = some 60 ∧ (120 : ℕ) ≠ 60 := by
  decide

/-- C9 amended: whenever the available width is positive, the measurement
step mutates the visible element first — the head of the style-write
sequence is `maxSize`, written before the final size is computed — and
whenever the chosen size differs from `maxSize` this first write differs
from the final applied size, so an intermediate size is applied to the
visible element. -/
theorem fitEffect_writes_maxSize_before_final (prevSize maxSize minSize padding
    containerWidth naturalWidth : ℕ) (h : 2 * padding < containerWidth)
    (hne : fitFontSize prevSize maxSize minSize padding containerWidth naturalWidth ≠ maxSize) :
    (fitEffectWrites prevSize maxSize minSize padding containerWidth naturalWidth).head? =
      some maxSize ∧
    (fitEffectWrites prevSize maxSize minSize padding containerWidth naturalWidth).getLast? =
      some (fitFontSize prevSize maxSize minSize padding containerWidth naturalWidth) ∧
    (fitEffectWrites prevSize maxSize minSize padding containerWidth naturalWidth).head? ≠
      (fitEffectWrites prevSize maxSize minSize padding containerWidth naturalWidth).getLast? := by
  unfold fitEffectWrites
  rw [if_neg (by omega)]
  refine ⟨rfl, rfl, ?_⟩
  simp only [List.head?_cons, List.getLast?, ne_eq, Option.some.injEq]
  intro hc
  exact hne hc.symm

/-- Witness for C9 (amended) at the concrete overflowing input. -/
theorem fitEffect_writes_maxSize_before_final_witness :
    (fitEffectWrites 120 120 36 40 580 1000).head? = some 120 ∧
    (fitEffectWrites 120 120 36 40 580 1000).getLast? =
      some (fitFontSize 120 120 36 40 580 1000) ∧
    (fitEffectWrites 120 120 36 40 580 1000).head? ≠
      (fitEffectWrites 120 120 36 40 580 1000).getLast? :=
  fitEffect_writes_maxSize_before_final 120 120 36 40 580 1000 (by decide) (by decide)

/-! ## C2 — dispatch totality of CardFactory -/

/-- C2: the dispatch entry point is total — each of the six declared
card_type values maps to its variant renderer for side front and for side
back, and every unrecognized card_type yields the Unknown Card Type
placeholder rendering on both sides instead of throwing. -/
theorem cardFactory_dispatch_total :
    (∀ t : String, t ∉ knownCardTypes →
      CardFactory t Side.front = Renderer.unknownFront t ∧
      CardFactory t Side.back = Renderer.unknownBack t) ∧
    (CardFactory "anchor" Side.front = Renderer.anchorFront ∧
     CardFactory "spotlight" Side.front = Renderer.spotlightFront ∧
     CardFactory "story" Side.front = Renderer.storyFront ∧
     CardFactory "connection" Side.front = Renderer.connectionFront ∧
     CardFactory "power_word" Side.front = Renderer.powerWordFront ∧
     CardFactory "tradition" Side.front = Renderer.traditionFront ∧
     CardFactory "anchor" Side.back = Renderer.anchorBack ∧
     CardFactory "spotlight" Side.back = Renderer.spotlightBack ∧
     CardFactory "story" Side.back = Renderer.storyBack ∧
     CardFactory "connection" Side.back = Renderer.connectionBack ∧
     CardFactory "power_word" Side.back = Renderer.powerWordBack ∧
     CardFactory "tradition" Side.back = Renderer.traditionBack) := by
  refine ⟨?_, by decide⟩
  intro t ht
  simp only [knownCardTypes, List.mem_cons, List.not_mem_nil, or_false, not_or] at ht
  obtain ⟨h1, h2, h3, h4, h5, h6⟩ := ht
  constructor <;> simp [CardFactory, h1, h2, h3, h4, h5, h6]

/-- Witness for C2 at a concrete unrecognized card type. -/
theorem cardFactory_dispatch_total_witness :
    CardFactory "mystery" Side.front = Renderer.unknownFront "mystery" ∧
    CardFactory "mystery" Side.back = Renderer.unknownBack "mystery" :=
  cardFactory_dispatch_total.1 "mystery" (by decide)

/-! ## C6 — manual-offset composition of DraggableElement -/

/-- C6: when the layout configuration's elementPositions map carries an
entry `(dx, dy)` for an element id, the rendered position is the default
layout position translated by `(dx, dy)`; with no entry for the id —
including after the map is cleared to the empty map — the rendered position
is exactly the default position. -/
theorem renderedPosition_offset_composition (defaultPos : Pos)
    (elementPositions : List (String × Pos)) (id : String) :
    (∀ q : Pos, elementPositions.lookup id = some q →
      renderedPosition defaultPos elementPositions id =
        Pos.mk (defaultPos.x + q.x) (defaultPos.y + q.y)) ∧
    (elementPositions.lookup id = none →
      renderedPosition defaultPos elementPositions id = defaultPos) ∧
    renderedPosition defaultPos [] id = defaultPos := by
  refine ⟨?_, ?_, ?_⟩
  · intro q hq
    simp [renderedPosition, elementOffset, hq]
  · intro hq
    simp [renderedPosition, elementOffset, hq]
  · simp [renderedPosition, elementOffset]

/-- Witness for C6: a stored offset translates the default position, and the
cleared map restores the default exactly. -/
theorem renderedPosition_offset_composition_witness :
    renderedPosition (Pos.mk 100 20) [("spotlight-names", Pos.mk 7 (-4))]
      "spotlight-names" = Pos.mk (100 + 7) (20 + (-4)) ∧
    renderedPosition (Pos.mk 100 20) [] "spotlight-names" = Pos.mk 100 20 :=
  ⟨(renderedPosition_offset_composition (Pos.mk 100 20)
      [("spotlight-names", Pos.mk 7 (-4))] "spotlight-names").1 (Pos.mk 7 (-4)) (by decide),
   (renderedPosition_offset_composition (Pos.mk 100 20) [] "spotlight-names").2.2⟩

/-! ## Characterization of normalizeFieldNames per card type -/

/-- On a spotlight card only the spotlight block fires. -/
theorem normalize_spotlight (card : RawCard) (h : card.card_type = "spotlight") :
    normalizeFieldNames card =
      { card with
        hebrew_name :=
          if !truthyStr card.hebrew_name && truthyStr card.character_name_he then
            card.character_name_he
          else card.hebrew_name,
        english_name :=
          if !truthyStr card.english_name && truthyStr card.character_name_en then
            card.character_name_en
          else card.english_name,
        emotion_word_he :=
          if !truthyStr card.emotion_word_he && truthyStr card.emotion_label_he then
            card.emotion_label_he
          else card.emotion_word_he,
        emotion_word_en :=
          if !truthyStr card.emotion_word_en && truthyStr card.emotion_label_en then
            card.emotion_label_en
          else card.emotion_word_en } := by
  simp [normalizeFieldNames, h]

/-- On a story card only the story block fires. -/
theorem normalize_story (card : RawCard) (h : card.card_type = "story") :
    normalizeFieldNames card =
      { card with
        english_description :=
          if !truthyStr card.english_description && truthyStr card.description_en then
            card.description_en
          else card.english_description } := by
  simp [normalizeFieldNames, h]

/-- On a connection card only the connection block fires. -/
theorem normalize_connection (card : RawCard) (h : card.card_type = "connection") :
    normalizeFieldNames card =
      { card with
        emojis :=
          if card.emojis.isNone && card.feeling_faces.isSome then
            some (emojisFromFeelingFaces (card.feeling_faces.getD []))
          else card.emojis } := by
  simp [normalizeFieldNames, h]

/-- On a tradition or anchor card only the title block fires. -/
theorem normalize_title (card : RawCard)
    (h : card.card_type = "tradition" ∨ card.card_type = "anchor") :
    normalizeFieldNames card =
      { card with
        hebrew_title :=
          if !truthyStr card.hebrew_title && truthyStr card.title_he then
            card.title_he
          else card.hebrew_title,
        english_title :=
          if !truthyStr card.english_title && truthyStr card.title_en then
            card.title_en
          else card.english_title } := by
  rcases h with h | h <;> simp [normalizeFieldNames, h]

/-- On every other card type normalization is the identity. -/
theorem normalize_other (card : RawCard)
    (h1 : card.card_type ≠ "spotlight") (h2 : card.card_type ≠ "story")
    (h3 : card.card_type ≠ "connection") (h4 : card.card_type ≠ "tradition")
    (h5 : card.card_type ≠ "anchor") :
    normalizeFieldNames card = card := by
  simp [normalizeFieldNames, h1, h2, h3, h4, h5]

/-! ## C10 — field-name normalization never overwrites -/

/-- C10: normalization never overwrites an existing field — every alias
target that is already truthy (and the `emojis` array whenever present) is
returned unchanged, and every field of the input record other than the
alias targets is returned unchanged. -/
theorem normalizeFieldNames_no_overwrite (card : RawCard) :
    ((truthyStr card.hebrew_name = true →
        (normalizeFieldNames card).hebrew_name = card.hebrew_name) ∧
     (truthyStr card.english_name = true →
        (normalizeFieldNames card).english_name = card.english_name) ∧
     (truthyStr card.emotion_word_he = true →
        (normalizeFieldNames card).emotion_word_he = card.emotion_word_he) ∧
     (truthyStr card.emotion_word_en = true →
        (normalizeFieldNames card).emotion_word_en = card.emotion_word_en) ∧
     (truthyStr card.english_description = true →
        (normalizeFieldNames card).english_description = card.english_description) ∧
     (card.emojis.isSome = true → (normalizeFieldNames card).emojis = card.emojis) ∧
     (truthyStr card.hebrew_title = true →
        (normalizeFieldNames card).hebrew_title = card.hebrew_title) ∧
     (truthyStr card.english_title = true →
        (normalizeFieldNames card).english_title = card.english_title)) ∧
    ((normalizeFieldNames card).card_type = card.card_type ∧
     (normalizeFieldNames card).character_name_he = card.character_name_he ∧
     (normalizeFieldNames card).character_name_en = card.character_name_en ∧
     (normalizeFieldNames card).emotion_label_he = card.emotion_label_he ∧
     (normalizeFieldNames card).emotion_label_en = card.emotion_label_en ∧
     (normalizeFieldNames card).description_en = card.description_en ∧
     (normalizeFieldNames card).title_he = card.title_he ∧
     (normalizeFieldNames card).title_en = card.title_en ∧
     (normalizeFieldNames card).feeling_faces = card.feeling_faces ∧
     (normalizeFieldNames card).border_color = card.border_color ∧
     (normalizeFieldNames card).image_path = card.image_path ∧
     (normalizeFieldNames card).teacher_script = card.teacher_script) := by
  by_cases hsp : card.card_type = "spotlight"
  · rw [normalize_spotlight card hsp]
    exact ⟨⟨fun h => by simp [h], fun h => by simp [h], fun h => by simp [h],
      fun h => by simp [h], fun h => rfl, fun h => rfl, fun h => rfl, fun h => rfl⟩,
      rfl, rfl, rfl, rfl, rfl, rfl, rfl, rfl, rfl, rfl, rfl, rfl⟩
  by_cases hst : card.card_type = "story"
  · rw [normalize_story card hst]
    exact ⟨⟨fun h => rfl, fun h => rfl, fun h => rfl, fun h => rfl,
      fun h => by simp [h], fun h => rfl, fun h => rfl, fun h => rfl⟩,
      rfl, rfl, rfl, rfl, rfl, rfl, rfl, rfl, rfl, rfl, rfl, rfl⟩
  by_cases hco : card.card_type = "connection"
  · rw [normalize_connection card hco]
    exact ⟨⟨fun h => rfl, fun h => rfl, fun h => rfl, fun h => rfl, fun h => rfl,
      fun h => by
        rcases Option.isSome_iff_exists.mp h with ⟨v, hv⟩
        simp [hv],
      fun h => rfl, fun h => rfl⟩,
      rfl, rfl, rfl, rfl, rfl, rfl, rfl, rfl, rfl, rfl, rfl, rfl⟩
  by_cases htr : card.card_type = "tradition"
  · rw [normalize_title card (Or.inl htr)]
    exact ⟨⟨fun h => rfl, fun h => rfl, fun h => rfl, fun h => rfl, fun h => rfl,
      fun h => rfl, fun h => by simp [h], fun h => by simp [h]⟩,
      rfl, rfl, rfl, rfl, rfl, rfl, rfl, rfl, rfl, rfl, rfl, rfl⟩
  by_cases han : card.card_type = "anchor"
  · rw [normalize_title card (Or.inr han)]
    exact ⟨⟨fun h => rfl, fun h => rfl, fun h => rfl, fun h => rfl, fun h => rfl,
      fun h => rfl, fun h => by simp [h], fun h => by simp [h]⟩,
      rfl, rfl, rfl, rfl, rfl, rfl, rfl, rfl, rfl, rfl, rfl, rfl⟩
  · rw [normalize_other card hsp hst hco htr han]
    exact ⟨⟨fun h => rfl, fun h => rfl, fun h => rfl, fun h => rfl, fun h => rfl,
      fun h => rfl, fun h => rfl, fun h => rfl⟩,
      rfl, rfl, rfl, rfl, rfl, rfl, rfl, rfl, rfl, rfl, rfl, rfl⟩

/-- Witness for C10 at the sample spotlight record: its populated targets
survive normalization and its alias sources are untouched. -/
theorem normalizeFieldNames_no_overwrite_witness :
    (normalizeFieldNames sampleSpotlight).hebrew_name = sampleSpotlight.hebrew_name ∧
    (normalizeFieldNames sampleSpotlight).emotion_word_he =
      sampleSpotlight.emotion_word_he ∧
    (normalizeFieldNames sampleSpotlight).character_name_he =
      sampleSpotlight.character_name_he :=
  ⟨(normalizeFieldNames_no_overwrite sampleSpotlight).1.1 (by decide),
   (normalizeFieldNames_no_overwrite sampleSpotlight).1.2.2.1 (by decide),
   (normalizeFieldNames_no_overwrite sampleSpotlight).2.2.1⟩

/-! ## Helper lemma for the server polling loop -/

/-- The bounded polling loop succeeds exactly when some attempt within the
budget finds the server reachable. -/
theorem waitForServer_eq_true_iff (readyAt : ℕ → Bool) (i fuel : ℕ) :
    waitForServer readyAt i fuel = true ↔ ∃ j, j < fuel ∧ readyAt (i + j) = true := by
  induction fuel generalizing i with
  | zero => simp [waitForServer]
  | succ n ih =>
    rw [waitForServer]
    by_cases hr : readyAt i = true
    · simp only [hr, if_true, true_iff]
      exact ⟨0, Nat.succ_pos n, by simpa using hr⟩
    · rw [if_neg hr]
      constructor
      · intro hw
        obtain ⟨j, hj, hrj⟩ := (ih (i + 1)).mp hw
        exact ⟨j + 1, by omega, by
          have : i + (j + 1) = i + 1 + j := by omega
          rw [this]
          exact hrj⟩
      · rintro ⟨j, hj, hrj⟩
        cases j with
        | zero => simp only [Nat.add_zero] at hrj; exact absurd hrj hr
        | succ k =>
          refine (ih (i + 1)).mpr ⟨k, by omega, ?_⟩
          have : i + 1 + k = i + (k + 1) := by omega
          rw [this]
          exact hrj

/-! ## C3 — exit codes of the export command -/

/-- C3: the export command ends with status 0 whenever the run reaches
completion, even when individual per-card exports fail — every failing card
produces an error log entry carrying its id and side while the loop covers
every card — and ends with status 1 when the deck manifest does not exist or
a spawned rendering server never becomes reachable within the 30 bounded
polling attempts. -/
theorem exportDeck_exit_codes (deckExists alreadyRunning : Bool) (readyAt : ℕ → Bool)
    (cards : List (String × Bool × Bool)) (opts : ExportOptions) :
    (deckExists = false →
      (exportDeck deckExists cards alreadyRunning readyAt opts).exitCode = 1) ∧
    (deckExists = true → alreadyRunning = false → (∀ i, i < 30 → readyAt i = false) →
      (exportDeck deckExists cards alreadyRunning readyAt opts).exitCode = 1) ∧
    (deckExists = true → (alreadyRunning = true ∨ ∃ i, i < 30 ∧ readyAt i = true) →
      (exportDeck deckExists cards alreadyRunning readyAt opts).exitCode = 0 ∧
      (exportDeck deckExists cards alreadyRunning readyAt opts).logs.length =
        ((if opts.fronts then cards.length else 0) +
          (if opts.backs then cards.length else 0)) ∧
      (∀ c ∈ cards, opts.fronts = true → c.2.1 = false →
        LogEntry.err c.1 Side.front ∈
          (exportDeck deckExists cards alreadyRunning readyAt opts).logs) ∧
      (∀ c ∈ cards, opts.backs = true → c.2.2 = false →
        LogEntry.err c.1 Side.back ∈
          (exportDeck deckExists cards alreadyRunning readyAt opts).logs)) := by
  refine ⟨?_, ?_, ?_⟩
  · intro h
    subst h
    rfl
  · intro hd ha hnone
    subst hd
    subst ha
    have hw : waitForServer readyAt 0 30 = false := by
      cases hcase : waitForServer readyAt 0 30 with
      | false => rfl
      | true =>
        obtain ⟨j, hj, hrj⟩ := (waitForServer_eq_true_iff readyAt 0 30).mp hcase
        rw [Nat.zero_add] at hrj
        rw [hnone j hj] at hrj
        exact absurd hrj (by simp)
    simp [exportDeck, hw]
  · intro hd hready
    subst hd
    have hsv : (alreadyRunning || waitForServer readyAt 0 30) = true := by
      rcases hready with h | ⟨i, hi, hri⟩
      · simp [h]
      · have hwt : waitForServer readyAt 0 30 = true :=
          (waitForServer_eq_true_iff readyAt 0 30).mpr ⟨i, hi, by simpa using hri⟩
        simp [hwt]
    obtain ⟨f, b⟩ := opts
    refine ⟨by simp [exportDeck, hsv], ?_, ?_, ?_⟩
    · cases f <;> cases b <;> simp [exportDeck, hsv]
    · intro c hc hf hcf
      subst hf
      simp only [exportDeck, Bool.not_true, if_false, hsv, Bool.not_false, if_true]
      refine List.mem_append.mpr (Or.inl ?_)
      refine List.mem_map.mpr ⟨c, hc, ?_⟩
      simp [exportCard, hcf]
    · intro c hc hb hcb
      subst hb
      simp only [exportDeck, Bool.not_true, if_false, hsv, Bool.not_false, if_true]
      refine List.mem_append.mpr (Or.inr ?_)
      refine List.mem_map.mpr ⟨c, hc, ?_⟩
      simp [exportCard, hcb]

/-- Witness for C3: a completed run over a deck whose only card fails its
front export still exits 0, and a run with a missing manifest exits 1. -/
theorem exportDeck_exit_codes_witness :
    (exportDeck true [("story_1", false, true)] true (fun _ => false)
      (ExportOptions.mk true true)).exitCode = 0 ∧
    (exportDeck false [] false (fun _ => false)
      (ExportOptions.mk true false)).exitCode = 1 :=
  ⟨((exportDeck_exit_codes true true (fun _ => false) [("story_1", false, true)]
      (ExportOptions.mk true true)).2.2 rfl (Or.inl rfl)).1,
   (exportDeck_exit_codes false false (fun _ => false) []
      (ExportOptions.mk true false)).1 rfl⟩

/-! ## C7 — server teardown exactly when spawned -/

/-- C7: at the end of every export run the orchestrator has terminated the
rendering-server child exactly when it spawned that child itself during the
run; when the initial probe found a server already running it never kills
it. -/
theorem exportDeck_teardown (deckExists alreadyRunning : Bool) (readyAt : ℕ → Bool)
    (cards : List (String × Bool × Bool)) (opts : ExportOptions) :
    (exportDeck deckExists cards alreadyRunning readyAt opts).killedSpawned =
      (exportDeck deckExists cards alreadyRunning readyAt opts).spawned ∧
    (alreadyRunning = true →
      (exportDeck deckExists cards alreadyRunning readyAt opts).killedSpawned = false) := by
  constructor
  · simp only [exportDeck]
    split_ifs <;> rfl
  · intro h
    subst h
    cases deckExists <;> simp [exportDeck]

/-- Witness for C7: reusing an already-running server leaves it alive. -/
theorem exportDeck_teardown_witness :
    (exportDeck true [("a", true, true)] true (fun _ => true)
      (ExportOptions.mk true false)).killedSpawned = false :=
  (exportDeck_teardown true true (fun _ => true) [("a", true, true)]
    (ExportOptions.mk true false)).2 rfl

/-! ## C8 — spotlight front with minimal content -/

/-- C8 counterexample: for the minimal spotlight content (names only, no
emotion fields) the rendered front still emits the emotion-badge element —
its two text slots are merely empty — so the front does not omit the badge
element entirely. -/
theorem spotlightFront_badge_counterexample :
    (spotlightFrontSlots (some "אֶסְתֵּר") (some "Esther") none none).map Slot.elementId =
      ["spotlight-names", "emotion-badge"] ∧
    Slot.mk "emotion-badge" [none, none] ∈
      spotlightFrontSlots (some "אֶסְתֵּר") (some "Esther") none none := by
  constructor
  · rfl
  · simp [spotlightFrontSlots]

/-- C8 amended: for a spotlight card with non-empty names and no emotion
fields the rendered front shows exactly the two name texts — no emotion text
and no placeholder for the missing fields — while the emotion-badge element
itself is still emitted with empty text slots rather than omitted. -/
theorem spotlightFront_minimal_content (hebrewName englishName : String)
    (hh : hebrewName ≠ "") (he : englishName ≠ "") :
    renderedTexts (spotlightFrontSlots (some hebrewName) (some englishName) none none) =
      [hebrewName, englishName] ∧
    Slot.mk "emotion-badge" [none, none] ∈
      spotlightFrontSlots (some hebrewName) (some englishName) none none ∧
    slotTexts (Slot.mk "emotion-badge" [none, none]) = [] := by
  refine ⟨?_, by simp [spotlightFrontSlots], rfl⟩
  simp [renderedTexts, spotlightFrontSlots, slotTexts, renderedText, hh, he]

/-- Witness for C8 (amended) at the scenario's concrete content. -/
theorem spotlightFront_minimal_content_witness :
    renderedTexts (spotlightFrontSlots (some "אֶסְתֵּר") (some "Esther") none none) =
      ["אֶסְתֵּר", "Esther"] ∧
    Slot.mk "emotion-badge" [none, none] ∈
      spotlightFrontSlots (some "אֶסְתֵּר") (some "Esther") none none ∧
    slotTexts (Slot.mk "emotion-badge" [none, none]) = [] :=
  spotlightFront_minimal_content "אֶסְתֵּר" "Esther" (by decide) (by decide)

end ParashaPack
